import Mathlib

/-!
Shallow embedding of `procrastinate/psycopg3_connector.py`.

The file models, straight from the source:
- the exception taxonomy visible in the module (psycopg driver errors on one
  side, procrastinate connector exceptions on the other);
- `wrap_exceptions` (the error classifier decorator);
- `wrap_query_exceptions` (the stale-connection query retrier decorator);
- `Psycopg3Connector.open_async`, `close_async`, `pool`, `_wrap_json`;
- `listen_notify` / `_loop_notify` (the notification bridge), as a trace of
  observable events produced while iterating the reconnect loop.

Async coroutines are modelled as explicit outcome functions: a query operation
is a function from the attempt number to `Except PyExc α` (what that attempt
would do), and the bridge's interaction with the database is an environment
describing which subscribe statements fail and how many notifications arrive
before the dedicated connection drops.
-/

namespace Procrastinate

/-- Python exceptions that appear in `psycopg3_connector.py`: the three driver
(psycopg) classes the module reacts to, the procrastinate exceptions it raises,
and a catch-all for anything else. `cause` models `raise ... from exc`. -/
inductive PyExc where
  /-- Driver `psycopg.errors.UniqueViolation`, with `exc.diag.constraint_name`
  (absent when the driver reports none). -/
  | pgUniqueViolation (constraint_name : Option String)
  /-- Driver `psycopg.errors.OperationalError`, with `str(exc)`. -/
  | pgOperationalError (msg : String)
  /-- any other `psycopg.Error`, with `str(exc)`. -/
  | pgError (msg : String)
  /-- Connector-side `procrastinate.exceptions.UniqueViolation(constraint_name=...)`. -/
  | uniqueViolation (constraint_name : Option String)
  /-- Connector-side `procrastinate.exceptions.ConnectorException(msg)`, chained `from cause`. -/
  | connectorException (msg : String) (cause : Option PyExc)
  /-- Connector-side `procrastinate.exceptions.AppNotOpen`. -/
  | appNotOpen
  /-- a non-psycopg, non-procrastinate exception. -/
  | otherExc (msg : String)

/-- Whether an exception is an instance of `psycopg.Error` (the driver's base
class): `UniqueViolation` and `OperationalError` are subclasses of it. -/
def PyExc.isPsycopgError : PyExc → Bool
  | .pgUniqueViolation _ => true
  | .pgOperationalError _ => true
  | .pgError _ => true
  | _ => false

/-- Tests `needle.isPrefixOf hay` at some position: the Python `needle in hay`
substring test, on lists of characters. -/
def listInfixTest (needle : List Char) : List Char → Bool
  | [] => needle.isEmpty
  | c :: rest => needle.isPrefixOf (c :: rest) || listInfixTest needle rest

/-- Python's `needle in hay` on strings. -/
def strContains (hay needle : String) : Bool :=
  listInfixTest needle.toList hay.toList

/-- The `wrap_exceptions` decorator: run the coroutine; re-raise `psycopg.errors.UniqueViolation`
as `exceptions.UniqueViolation(constraint_name=exc.diag.constraint_name)`,
re-raise any other `psycopg.Error` as `exceptions.ConnectorException from exc`;
everything else (success included) passes through. -/
def wrap_exceptions {α : Type} (result : Except PyExc α) : Except PyExc α :=
  match result with
  | .ok a => .ok a
  | .error (.pgUniqueViolation name) => .error (.uniqueViolation name)
  | .error e =>
      if e.isPsycopgError then .error (.connectorException "" (some e))
      else .error e

/-- The message `wrap_query_exceptions` looks for inside
`str(exc)` of an `OperationalError`. -/
def staleMsg : String := "server closed the connection unexpectedly"

/-- The `for _ in range(max_tries)` loop of `wrap_query_exceptions.wrapped`.
`k` is the index of the next attempt, `remaining` how many loop iterations are
left, `final_exc` the last swallowed stale-connection error. Returns the
result together with the number of attempts actually made (calls to `op`).
When the loop runs out, raise
`ConnectorException(f"Could not get a valid connection after {max_tries} tries")
from final_exc`. -/
def attemptLoop {α : Type} (op : Nat → Except PyExc α) (max_tries : Nat) :
    Nat → Nat → Option PyExc → Except PyExc α × Nat
  | _, 0, final_exc =>
      (.error (.connectorException
        ("Could not get a valid connection after " ++ toString max_tries ++ " tries")
        final_exc), 0)
  | k, remaining + 1, final_exc =>
      match op k with
      | .ok a => (.ok a, 1)
      | .error (.pgOperationalError msg) =>
          if strContains msg staleMsg then
            let p := attemptLoop op max_tries (k + 1) remaining
              (some (.pgOperationalError msg))
            (p.1, p.2 + 1)
          else (.error (.pgOperationalError msg), 1)
      | .error e => (.error e, 1)

/-- The `wrap_query_exceptions` decorator: compute
`max_tries = args[0]._pool.max_size + 1` (falling back to `1` when reading
`_pool.max_size` raises, e.g. `_pool` is `None`), then run the attempt loop.
`poolMaxSize` is `none` when the read raises. The operation is the function
from attempt number to that attempt's outcome. -/
def wrap_query_exceptions {α : Type} (poolMaxSize : Option Nat)
    (op : Nat → Except PyExc α) : Except PyExc α × Nat :=
  let max_tries := match poolMaxSize with
    | some max_size => max_size + 1
    | none => 1
  attemptLoop op max_tries 0 max_tries none

/-- A `psycopg_pool.AsyncConnectionPool` as this module observes it: an
identity (so "the same pool handle" is expressible), its configured
`max_size`, and whether it is closed. -/
structure Pool where
  id : Nat
  max_size : Nat
  closed : Bool
deriving DecidableEq, Repr

/-- The `Psycopg3Connector` state touched by the pool lifecycle methods:
`self._pool`, `self._pool_externally_set`, and the `max_size` recorded in
`self._pool_args` (used when `_create_pool` builds the internal pool). -/
structure Connector where
  _pool : Option Pool
  _pool_externally_set : Bool
  pool_args_max_size : Nat
deriving DecidableEq, Repr

/-- Method `open_async(pool=None)`: if `self._pool` is set, return immediately;
else adopt the given pool (marking it externally set) or create one from
`self._pool_args` (`freshId` stands for the identity of the newly constructed
pool object); finally `await self._pool.open()` (the pool ends up open). -/
def open_async (c : Connector) (pool : Option Pool) (freshId : Nat) : Connector :=
  if c._pool.isSome then c
  else
    let c2 : Connector :=
      match pool with
      | some p => { c with _pool_externally_set := true, _pool := some p }
      | none =>
          { c with
            _pool := some
              { id := freshId, max_size := c.pool_args_max_size, closed := true } }
    { c2 with _pool := c2._pool.map (fun p => { p with closed := false }) }

/-- What `close_async` did to the underlying pool object: nothing, or
`await pool.close()` on the pool with the given identity. -/
inductive CloseEffect where
  | noop
  | closedPool (id : Nat)
deriving DecidableEq, Repr

/-- Method `close_async()`: if `self._pool` is unset or `self._pool_externally_set`,
return without touching anything; otherwise `await self._pool.close()` and set
`self._pool = None`. -/
def close_async (c : Connector) : Connector × CloseEffect :=
  if c._pool.isNone || c._pool_externally_set then (c, .noop)
  else
    match c._pool with
    | some p => ({ c with _pool := none }, .closedPool p.id)
    | none => (c, .noop)

/-- The `pool` property: raise `AppNotOpen` when `self._pool is None`. -/
def poolProperty (c : Connector) : Except PyExc Pool :=
  match c._pool with
  | none => .error .appNotOpen
  | some p => .ok p

/-- A Python value passed as a query argument: a `dict`, a scalar, or a
`psycopg.types.json.Jsonb` wrapper (carrying the `dumps=` function it was
given; encoders are identified by a tag). -/
inductive PyObj where
  | dict (entries : List (String × PyObj))
  | str (s : String)
  | int (n : Int)
  | pyNone
  | jsonb (inner : PyObj) (dumpsTag : Option Nat)

/-- Python's `isinstance(value, dict)`. -/
def PyObj.isDict : PyObj → Bool
  | .dict _ => true
  | _ => false

/-- Method `_wrap_json(arguments)`: rebuild the mapping, wrapping each `dict` value
in `Jsonb(value, dumps=self.json_dumps)` and keeping every other value as is.
`json_dumps` is the connector's configured encoder tag (`None` = driver
default). -/
def _wrap_json (json_dumps : Option Nat)
    (arguments : List (String × PyObj)) : List (String × PyObj) :=
  arguments.map (fun kv =>
    (kv.1, if kv.2.isDict then PyObj.jsonb kv.2 json_dumps else kv.2))

/-- Observable events of one run of the notification bridge. `subscribe ch`
records that the subscribe statement for channel `ch` succeeded on the
current dedicated connection; `setSignal` is `event.set()`; `clearSignal`
(`event.clear()`) is expressible but, as proved below, never emitted. -/
inductive BridgeEvent where
  | acquireConn
  | setAutocommit
  | subscribe (channel : String)
  | setSignal
  | clearSignal
deriving DecidableEq, Repr

/-- Behaviour of the database during one iteration of the `while True` loop in
`listen_notify`: which channels' subscribe statements raise (and with what),
and the sizes of the bursts of notifications delivered by
`connection.notifies()` between `OperationalError`s, before the dedicated
connection is found closed. -/
structure IterEnv where
  subErr : String → Option PyExc
  notifyBatches : List Nat

/-- The `for channel_name in channels` subscribe loop: execute the formatted
`listen_queue` statement per channel, stopping at the first raising execute.
Returns the subscribe events that succeeded and the raised exception, if
any. -/
def runSubscribes (subErr : String → Option PyExc) :
    List String → List BridgeEvent × Option PyExc
  | [] => ([], none)
  | ch :: rest =>
      match subErr ch with
      | some e => ([], some e)
      | none =>
          match runSubscribes subErr rest with
          | (evs, err) => (.subscribe ch :: evs, err)

/-- Method `_loop_notify`: while the connection is not closed, consume the
notification stream, calling `event.set()` once per received notification;
an `OperationalError` while consuming is swallowed and the loop re-checks
`connection.closed`. With the environment's batch description this yields one
`setSignal` per notification and returns when the connection is closed. -/
def _loop_notify (notifyBatches : List Nat) : List BridgeEvent :=
  (notifyBatches.map (fun n => List.replicate n BridgeEvent.setSignal)).flatten

/-- One iteration of the `while True` loop of `listen_notify`: acquire a
connection, `set_autocommit(True)`, run the subscribe loop; when every
subscribe succeeded, `event.set()` and enter `_loop_notify`; when a subscribe
raised, the exception propagates out of the loop. -/
def listenIter (channels : List String) (env : IterEnv) :
    List BridgeEvent × Option PyExc :=
  match runSubscribes env.subErr channels with
  | (evs, some e) => (.acquireConn :: .setAutocommit :: evs, some e)
  | (evs, none) =>
      (.acquireConn :: .setAutocommit ::
        (evs ++ .setSignal :: _loop_notify env.notifyBatches), none)

/-- The `while True` loop of `listen_notify`, observed for as many iterations
as `envs` describes (the real loop never exits on its own; a finite prefix of
its behaviour is observed). An exception from an iteration ends the run. -/
def runIters (channels : List String) :
    List IterEnv → List BridgeEvent × Option PyExc
  | [] => ([], none)
  | env :: rest =>
      match listenIter channels env with
      | (t1, some e) => (t1, some e)
      | (t1, none) =>
          (t1 ++ (runIters channels rest).1, (runIters channels rest).2)

/-- Method `listen_notify(event, channels)`: read `self.pool` (raising `AppNotOpen`
when the connector is not open); when `self.pool.max_size == 1`, log a warning
and return; otherwise run the perpetual subscribe-and-listen loop. -/
def listen_notify (c : Connector) (channels : List String)
    (envs : List IterEnv) : List BridgeEvent × Option PyExc :=
  match c._pool with
  | none => ([], some .appNotOpen)
  | some p =>
      if p.max_size == 1 then ([], none)
      else runIters channels envs

/-- In trace `t`, every `setSignal` happens inside a phase opened by an
`acquireConn` — with no further `acquireConn` between that point and the
signal — and, for every channel of the channel set, a successful subscribe
event for that channel lies strictly between the phase's `acquireConn` and
the `setSignal`: the signal is never set while only part of the channel set
is subscribed on the current dedicated connection. -/
def SignalAfterFullSubscribe (channels : List String) (t : List BridgeEvent) : Prop :=
  ∀ i, t.get? i = some BridgeEvent.setSignal →
    ∃ s, s < i ∧ t.get? s = some BridgeEvent.acquireConn ∧
      (∀ j, s < j → j ≤ i → t.get? j ≠ some BridgeEvent.acquireConn) ∧
      ∀ ch ∈ channels, ∃ j, s < j ∧ j < i ∧
        t.get? j = some (BridgeEvent.subscribe ch)

/-! Concrete instances used to witness the theorems below at specific
inputs. -/

/-- A pool with `max_size = 1`. -/
def poolMax1 : Pool := { id := 7, max_size := 1, closed := false }

/-- An open connector whose pool has maximum size 1. -/
def connMax1 : Connector :=
  { _pool := some poolMax1, _pool_externally_set := false,
    pool_args_max_size := 10 }

/-- An open connector holding an externally supplied pool. -/
def connExternal : Connector :=
  { _pool := some { id := 3, max_size := 10, closed := false },
    _pool_externally_set := true, pool_args_max_size := 10 }

/-- An operation that fails with the stale-connection message on every
attempt. -/
def constStaleOp : Nat → Except PyExc Nat :=
  fun _ => .error (.pgOperationalError staleMsg)

/-- The messages of `constStaleOp`. -/
def constStaleMsgs : Nat → String := fun _ => staleMsg

/-- An operation that fails with a non-stale operational message. -/
def opFailOther : Nat → Except PyExc Nat :=
  fun _ => .error (.pgOperationalError "connection refused")

/-- An operation that fails with the stale-connection message on attempt 0 and
succeeds from attempt 1 on. -/
def opStaleThenOk : Nat → Except PyExc Nat :=
  fun i => if i < 1 then .error (.pgOperationalError staleMsg) else .ok 42

end Procrastinate

namespace Procrastinate

/-! Helper lemmas about the retrier's attempt loop. -/

/-- If the first `j` attempts starting at `k` fail with stale-connection
operational errors and attempt `k + j` succeeds, the loop returns the success
after exactly `j + 1` calls to the operation. -/
theorem attemptLoop_succ_after {α : Type} (op : Nat → Except PyExc α)
    (mt : Nat) (msgs : Nat → String) (v : α) :
    ∀ j k r fe, j < r →
      (∀ i, i < j → op (k + i) = .error (.pgOperationalError (msgs (k + i)))) →
      (∀ i, i < j → strContains (msgs (k + i)) staleMsg = true) →
      op (k + j) = .ok v →
      attemptLoop op mt k r fe = (.ok v, j + 1) := by
  intro j
  induction j with
  | zero =>
      intro k r fe hr hop hst hsucc
      obtain ⟨r', rfl⟩ : ∃ r', r = r' + 1 := ⟨r - 1, by omega⟩
      rw [Nat.add_zero] at hsucc
      simp [attemptLoop, hsucc]
  | succ j' ih =>
      intro k r fe hr hop hst hsucc
      obtain ⟨r', rfl⟩ : ∃ r', r = r' + 1 := ⟨r - 1, by omega⟩
      have h0 := hop 0 (by omega)
      have hs0 := hst 0 (by omega)
      rw [Nat.add_zero] at h0 hs0
      have ihres := ih (k + 1) r' (some (.pgOperationalError (msgs k))) (by omega)
        (fun i hi => by
          have h := hop (i + 1) (by omega)
          rwa [show k + (i + 1) = k + 1 + i by omega] at h)
        (fun i hi => by
          have h := hst (i + 1) (by omega)
          rwa [show k + (i + 1) = k + 1 + i by omega] at h)
        (by rw [show k + 1 + j' = k + (j' + 1) by omega]; exact hsucc)
      simp [attemptLoop, h0, hs0, ihres]

/-- If every attempt in the remaining budget fails with a stale-connection
operational error, the loop exhausts the budget and raises
`ConnectorException`, chaining the error of the last attempt. -/
theorem attemptLoop_all_stale {α : Type} (op : Nat → Except PyExc α)
    (mt : Nat) (msgs : Nat → String) :
    ∀ r k fe, 1 ≤ r →
      (∀ i, i < r → op (k + i) = .error (.pgOperationalError (msgs (k + i)))) →
      (∀ i, i < r → strContains (msgs (k + i)) staleMsg = true) →
      attemptLoop op mt k r fe =
        (.error (.connectorException
          ("Could not get a valid connection after " ++ toString mt ++ " tries")
          (some (.pgOperationalError (msgs (k + r - 1))))), r) := by
  intro r
  induction r with
  | zero => omega
  | succ r' ih =>
      intro k fe h1 hop hst
      have h0 := hop 0 (by omega)
      have hs0 := hst 0 (by omega)
      rw [Nat.add_zero] at h0 hs0
      cases r' with
      | zero =>
          simp [attemptLoop, h0, hs0]
      | succ r'' =>
          have ihres := ih (k + 1) (some (.pgOperationalError (msgs k))) (by omega)
            (fun i hi => by
              have h := hop (i + 1) (by omega)
              rwa [show k + (i + 1) = k + 1 + i by omega] at h)
            (fun i hi => by
              have h := hst (i + 1) (by omega)
              rwa [show k + (i + 1) = k + 1 + i by omega] at h)
          rw [show k + 1 + (r'' + 1) - 1 = k + (r'' + 1 + 1) - 1 by omega] at ihres
          rw [attemptLoop, h0]
          simp [hs0, ihres]

/-- If attempt 0 fails with anything other than a stale-connection
operational error, the loop re-raises it after that single attempt. -/
theorem attemptLoop_first_not_stale {α : Type} (op : Nat → Except PyExc α)
    (mt r : Nat) (fe : Option PyExc) (e : PyExc)
    (h0 : op 0 = .error e)
    (hnot : ∀ msg, e = .pgOperationalError msg → strContains msg staleMsg = false) :
    attemptLoop op mt 0 (r + 1) fe = (.error e, 1) := by
  cases e <;> simp_all [attemptLoop]

/-- Claim C1: when a query operation fails with an operational error whose
message indicates the server closed the connection unexpectedly on every
attempt, `wrap_query_exceptions` raises `ConnectorException` after exactly
`max_size + 1` attempts, with a message stating how many tries were attempted,
chaining the last observed failure as cause. -/
theorem claim_C1 {α : Type} (max_size : Nat) (op : Nat → Except PyExc α)
    (msgs : Nat → String)
    (hop : ∀ i, i < max_size + 1 → op i = .error (.pgOperationalError (msgs i)))
    (hstale : ∀ i, i < max_size + 1 → strContains (msgs i) staleMsg = true) :
    wrap_query_exceptions (some max_size) op =
      (.error (.connectorException
        ("Could not get a valid connection after " ++ toString (max_size + 1) ++ " tries")
        (some (.pgOperationalError (msgs max_size)))), max_size + 1) := by
  have h := attemptLoop_all_stale op (max_size + 1) msgs (max_size + 1) 0 none
    (by omega)
    (fun i hi => by simpa using hop i (by omega))
    (fun i hi => by simpa using hstale i (by omega))
  simpa [wrap_query_exceptions] using h

/-- Witness for C1 at `max_size = 1` and an operation failing with the stale
message on every attempt. -/
theorem claim_C1_witness :
    ((∀ i, i < 1 + 1 →
        constStaleOp i = .error (.pgOperationalError (constStaleMsgs i))) ∧
      (∀ i, i < 1 + 1 → strContains (constStaleMsgs i) staleMsg = true)) ∧
    wrap_query_exceptions (some 1) constStaleOp =
      (.error (.connectorException
        ("Could not get a valid connection after " ++ toString (1 + 1) ++ " tries")
        (some (.pgOperationalError (constStaleMsgs 1)))), 1 + 1) :=
  ⟨⟨fun _ _ => rfl,
    fun _ _ => by show strContains staleMsg staleMsg = true; decide⟩,
    claim_C1 1 constStaleOp constStaleMsgs (fun _ _ => rfl)
      (fun _ _ => by show strContains staleMsg staleMsg = true; decide)⟩

/-- Claim C5: a query operation that fails with the stale-connection message
exactly `k` times (`k ≤ max_size`) and then succeeds gives back the success
value, after exactly `k + 1` (hence at most `k + 1`) attempts. -/
theorem claim_C5 {α : Type} (max_size k : Nat) (op : Nat → Except PyExc α)
    (msgs : Nat → String) (v : α)
    (hk : k ≤ max_size)
    (hop : ∀ i, i < k → op i = .error (.pgOperationalError (msgs i)))
    (hstale : ∀ i, i < k → strContains (msgs i) staleMsg = true)
    (hsucc : op k = .ok v) :
    wrap_query_exceptions (some max_size) op = (.ok v, k + 1) := by
  have h := attemptLoop_succ_after op (max_size + 1) msgs v k 0 (max_size + 1) none
    (by omega)
    (fun i hi => by simpa using hop i hi)
    (fun i hi => by simpa using hstale i hi)
    (by simpa using hsucc)
  simpa [wrap_query_exceptions] using h

/-- Witness for C5: one stale failure, then success, inside a budget of
`max_size = 3`. -/
theorem claim_C5_witness :
    (1 ≤ 3 ∧
      (∀ i, i < 1 →
        opStaleThenOk i = .error (.pgOperationalError (constStaleMsgs i))) ∧
      (∀ i, i < 1 → strContains (constStaleMsgs i) staleMsg = true) ∧
      opStaleThenOk 1 = .ok 42) ∧
    wrap_query_exceptions (some 3) opStaleThenOk = (.ok 42, 1 + 1) :=
  ⟨⟨by omega,
    fun i hi => by
      have h : i = 0 := by omega
      subst h; rfl,
    fun i _ => by show strContains staleMsg staleMsg = true; decide, rfl⟩,
    claim_C5 3 1 opStaleThenOk constStaleMsgs 42 (by omega)
      (fun i hi => by
        have h : i = 0 := by omega
        subst h; rfl)
      (fun i _ => by show strContains staleMsg staleMsg = true; decide) rfl⟩

/-- Claim C3: only operational failures carrying the stale-connection message
are swallowed and retried; any other failure of the first attempt (any
non-operational error, and any operational error with another message) is
re-raised after that first attempt, with no retry, for any pool size. -/
theorem claim_C3 {α : Type} (poolMaxSize : Option Nat)
    (op : Nat → Except PyExc α) (e : PyExc)
    (h0 : op 0 = .error e)
    (hnot : ∀ msg, e = .pgOperationalError msg → strContains msg staleMsg = false) :
    wrap_query_exceptions poolMaxSize op = (.error e, 1) := by
  cases poolMaxSize with
  | none => exact attemptLoop_first_not_stale op 1 0 none e h0 hnot
  | some m => exact attemptLoop_first_not_stale op (m + 1) m none e h0 hnot

/-- Witness for C3: a "connection refused" operational error propagates on the
first attempt. -/
theorem claim_C3_witness :
    (opFailOther 0 = .error (.pgOperationalError "connection refused") ∧
      (∀ msg, PyExc.pgOperationalError "connection refused" = .pgOperationalError msg →
        strContains msg staleMsg = false)) ∧
    wrap_query_exceptions (some 9) opFailOther =
      (.error (.pgOperationalError "connection refused"), 1) :=
  ⟨⟨rfl, fun msg h => by cases h; decide⟩,
    claim_C3 (some 9) opFailOther (.pgOperationalError "connection refused") rfl
      (fun msg h => by cases h; decide)⟩

/-- Claim C10: when reading the pool's `max_size` raises (for example no pool
is set), the retry budget falls back to exactly 1: one attempt is made, and a
stale-connection failure on that attempt raises `ConnectorException` reporting
1 try, with no retry. -/
theorem claim_C10 {α : Type} (op : Nat → Except PyExc α) (msg : String)
    (h0 : op 0 = .error (.pgOperationalError msg))
    (hstale : strContains msg staleMsg = true) :
    wrap_query_exceptions none op =
      (.error (.connectorException "Could not get a valid connection after 1 tries"
        (some (.pgOperationalError msg))), 1) := by
  show attemptLoop op 1 0 1 none = _
  simp [attemptLoop, h0, hstale]
  rfl

/-- Witness for C10: with no readable pool size, a stale failure on the single
attempt reports 1 try. -/
theorem claim_C10_witness :
    (constStaleOp 0 = .error (.pgOperationalError staleMsg) ∧
      strContains staleMsg staleMsg = true) ∧
    wrap_query_exceptions none constStaleOp =
      (.error (.connectorException "Could not get a valid connection after 1 tries"
        (some (.pgOperationalError staleMsg))), 1) :=
  ⟨⟨rfl, by decide⟩, claim_C10 constStaleOp staleMsg rfl (by decide)⟩

/-- Claim C4: `wrap_exceptions` maps every driver-level (psycopg) failure to
exactly one of `UniqueViolation` — carrying, verbatim, the constraint name the
driver reported — or a generic `ConnectorException` chaining the original
failure as cause; and whatever it raises is never a driver error type, so
none escapes the layer. -/
theorem claim_C4 {α : Type} (e : PyExc) (he : e.isPsycopgError = true) :
    ((∃ name, e = PyExc.pgUniqueViolation name ∧
        wrap_exceptions (α := α) (.error e) = .error (.uniqueViolation name)) ∨
      ((∀ name, e ≠ PyExc.pgUniqueViolation name) ∧
        wrap_exceptions (α := α) (.error e) =
          .error (.connectorException "" (some e)))) ∧
    (∀ e', wrap_exceptions (α := α) (.error e) = .error e' →
      e'.isPsycopgError = false) := by
  cases e <;> simp_all [wrap_exceptions, PyExc.isPsycopgError]

/-- Witness for C4: a generic driver error is wrapped into
`ConnectorException` with the original failure as cause. -/
theorem claim_C4_witness :
    (PyExc.pgError "syntax error").isPsycopgError = true ∧
    ((∃ name, PyExc.pgError "syntax error" = PyExc.pgUniqueViolation name ∧
        wrap_exceptions (α := Nat) (.error (PyExc.pgError "syntax error")) =
          .error (.uniqueViolation name)) ∨
      ((∀ name, PyExc.pgError "syntax error" ≠ PyExc.pgUniqueViolation name) ∧
        wrap_exceptions (α := Nat) (.error (PyExc.pgError "syntax error")) =
          .error (.connectorException "" (some (PyExc.pgError "syntax error"))))) ∧
    (∀ e', wrap_exceptions (α := Nat) (.error (PyExc.pgError "syntax error")) =
        .error e' → e'.isPsycopgError = false) :=
  ⟨rfl, claim_C4 (PyExc.pgError "syntax error") rfl⟩

/-- Claim C6: on an open connector whose pool has maximum size 1,
`listen_notify` is a no-op: it returns with an empty event trace and no
exception — no connection is acquired, no subscribe statement is issued, and
the shared signal is never set. -/
theorem claim_C6 (c : Connector) (p : Pool) (channels : List String)
    (envs : List IterEnv)
    (hp : c._pool = some p) (h1 : p.max_size = 1) :
    listen_notify c channels envs = ([], none) ∧
    BridgeEvent.acquireConn ∉ (listen_notify c channels envs).1 ∧
    (∀ ch, BridgeEvent.subscribe ch ∉ (listen_notify c channels envs).1) ∧
    BridgeEvent.setSignal ∉ (listen_notify c channels envs).1 := by
  have h : listen_notify c channels envs = ([], none) := by
    simp [listen_notify, hp, h1]
  refine ⟨h, ?_, ?_, ?_⟩ <;> simp [h]

/-- Witness for C6 on a concrete size-1-pool connector. -/
theorem claim_C6_witness :
    (connMax1._pool = some poolMax1 ∧ poolMax1.max_size = 1) ∧
    (listen_notify connMax1 ["jobs"] [] = ([], none) ∧
      BridgeEvent.acquireConn ∉ (listen_notify connMax1 ["jobs"] []).1 ∧
      (∀ ch, BridgeEvent.subscribe ch ∉ (listen_notify connMax1 ["jobs"] []).1) ∧
      BridgeEvent.setSignal ∉ (listen_notify connMax1 ["jobs"] []).1) :=
  ⟨⟨rfl, rfl⟩, claim_C6 connMax1 poolMax1 ["jobs"] [] rfl rfl⟩

/-- Claim C7: calling `open_async` a second time with no intervening close is
idempotent — the second call is a no-op and the pool handle is unchanged. -/
theorem claim_C7 (c : Connector) (p1 : Option Pool) (fid1 : Nat)
    (p2 : Option Pool) (fid2 : Nat) :
    open_async (open_async c p1 fid1) p2 fid2 = open_async c p1 fid1 ∧
    (open_async (open_async c p1 fid1) p2 fid2)._pool =
      (open_async c p1 fid1)._pool := by
  have hsome : (open_async c p1 fid1)._pool.isSome = true := by
    unfold open_async
    by_cases h : c._pool.isSome
    · simpa [h] using h
    · cases p1 <;> simp [h]
  have h2 : open_async (open_async c p1 fid1) p2 fid2 = open_async c p1 fid1 := by
    conv_lhs => rw [open_async.eq_def]
    simp [hsome]
  exact ⟨h2, by rw [h2]⟩

/-- Claim C8: `close_async` is a no-op when the connector is not open or its
pool is externally supplied (in particular it never issues a close on an
externally supplied pool); otherwise it closes the pool and clears the
internal state. -/
theorem claim_C8 (c : Connector) :
    ((c._pool = none ∨ c._pool_externally_set = true) →
      close_async c = (c, CloseEffect.noop)) ∧
    (∀ p, c._pool = some p → c._pool_externally_set = false →
      close_async c = ({ c with _pool := none }, CloseEffect.closedPool p.id)) := by
  constructor
  · intro h
    rcases h with h | h <;> simp [close_async, h]
  · intro p hp hext
    simp [close_async, hp, hext]

/-- Claim C9: `_wrap_json` keeps the keys and the order of the parameter
mapping, wraps every `dict` value in the driver's `Jsonb` representation
carrying the configured encoder, and passes every non-`dict` value through
unchanged. -/
theorem claim_C9 (json_dumps : Option Nat) (args : List (String × PyObj)) :
    (_wrap_json json_dumps args).length = args.length ∧
    ∀ i k v, args.get? i = some (k, v) →
      ((_wrap_json json_dumps args).get? i =
        some (k, if v.isDict then PyObj.jsonb v json_dumps else v)) ∧
      (∀ es, v = PyObj.dict es →
        (_wrap_json json_dumps args).get? i = some (k, PyObj.jsonb v json_dumps)) ∧
      (v.isDict = false →
        (_wrap_json json_dumps args).get? i = some (k, v)) := by
  constructor
  · simp [_wrap_json]
  · intro i k v hget
    have hmain : (_wrap_json json_dumps args).get? i =
        some (k, if v.isDict then PyObj.jsonb v json_dumps else v) := by
      unfold _wrap_json
      rw [List.get?_map, hget]
      rfl
    refine ⟨hmain, ?_, ?_⟩
    · intro es hv
      subst hv
      simpa [PyObj.isDict] using hmain
    · intro hnd
      rw [hmain]
      simp [hnd]

/-! Helper lemmas about the notification bridge's event traces. -/

/-- The subscribe loop only emits subscribe events. -/
theorem runSubscribes_mem (subErr : String → Option PyExc) :
    ∀ (chs : List String) (e : BridgeEvent), e ∈ (runSubscribes subErr chs).1 →
      ∃ ch, e = BridgeEvent.subscribe ch := by
  intro chs
  induction chs with
  | nil => intro e he; simp [runSubscribes] at he
  | cons ch rest ih =>
      intro e he
      cases hc : subErr ch with
      | some ex => simp [runSubscribes, hc] at he
      | none =>
          cases hr : runSubscribes subErr rest with
          | mk evs err =>
              simp [runSubscribes, hc, hr] at he
              rcases he with rfl | he
              · exact ⟨ch, rfl⟩
              · exact ih e (by rw [hr]; exact he)

/-- The listening loop only emits signal-set events. -/
theorem loop_notify_mem (b : List Nat) (e : BridgeEvent)
    (he : e ∈ _loop_notify b) : e = BridgeEvent.setSignal := by
  simp [_loop_notify, List.mem_flatten, List.mem_map] at he
  obtain ⟨n, hn, hel⟩ := he
  exact hel.2

/-- When no subscribe statement raises, the subscribe loop emits one
subscribe event per channel, in order. -/
theorem runSubscribes_none (subErr : String → Option PyExc) :
    ∀ chs : List String, (runSubscribes subErr chs).2 = none →
      (runSubscribes subErr chs).1 = chs.map BridgeEvent.subscribe := by
  intro chs
  induction chs with
  | nil => intro _; rfl
  | cons ch rest ih =>
      intro h
      cases hc : subErr ch with
      | some ex => simp [runSubscribes, hc] at h
      | none =>
          cases hr : runSubscribes subErr rest with
          | mk evs err =>
              simp [runSubscribes, hc, hr] at h ⊢
              have := ih (by rw [hr, h])
              rw [hr] at this
              exact this

/-- Property `SignalAfterFullSubscribe` is preserved by concatenating traces. -/
theorem safs_append {channels : List String} {t1 t2 : List BridgeEvent}
    (h1 : SignalAfterFullSubscribe channels t1)
    (h2 : SignalAfterFullSubscribe channels t2) :
    SignalAfterFullSubscribe channels (t1 ++ t2) := by
  intro i hi
  by_cases hlt : i < t1.length
  · rw [List.get?_append hlt] at hi
    obtain ⟨s, hs1, hs2, hs3, hs4⟩ := h1 i hi
    refine ⟨s, hs1, ?_, ?_, ?_⟩
    · rw [List.get?_append (by omega)]
      exact hs2
    · intro j hj1 hj2
      rw [List.get?_append (by omega)]
      exact hs3 j hj1 hj2
    · intro ch hch
      obtain ⟨j, hj1, hj2, hj3⟩ := hs4 ch hch
      exact ⟨j, hj1, hj2, by rw [List.get?_append (by omega)]; exact hj3⟩
  · push_neg at hlt
    rw [List.get?_append_right hlt] at hi
    obtain ⟨s, hs1, hs2, hs3, hs4⟩ := h2 (i - t1.length) hi
    refine ⟨t1.length + s, by omega, ?_, ?_, ?_⟩
    · rw [List.get?_append_right (by omega)]
      simpa using hs2
    · intro j hj1 hj2
      rw [List.get?_append_right (by omega)]
      have h := hs3 (j - t1.length) (by omega) (by omega)
      exact h
    · intro ch hch
      obtain ⟨j, hj1, hj2, hj3⟩ := hs4 ch hch
      refine ⟨t1.length + j, by omega, by omega, ?_⟩
      rw [List.get?_append_right (by omega)]
      simpa using hj3

/-- One pass of the bridge's loop satisfies the full-subscription discipline:
its trace sets the signal only after a subscribe event for every channel, all
on the phase's single acquired connection. -/
theorem listenIter_safs (channels : List String) (env : IterEnv) :
    SignalAfterFullSubscribe channels (listenIter channels env).1 := by
  cases hp : runSubscribes env.subErr channels with
  | mk evs err =>
      cases err with
      | some ex =>
          intro i hi
          exfalso
          simp only [listenIter, hp] at hi
          have hmem := List.get?_mem hi
          simp only [List.mem_cons] at hmem
          rcases hmem with h | h | h
          · simp at h
          · simp at h
          · obtain ⟨ch, hch⟩ := runSubscribes_mem env.subErr channels _
              (by rw [hp]; exact h)
            simp at hch
      | none =>
          have hevs : evs = channels.map BridgeEvent.subscribe := by
            have h := runSubscribes_none env.subErr channels (by rw [hp])
            rw [hp] at h
            exact h
          subst hevs
          have ht : (listenIter channels env).1 =
              BridgeEvent.acquireConn :: BridgeEvent.setAutocommit ::
                (channels.map BridgeEvent.subscribe
                  ++ BridgeEvent.setSignal :: _loop_notify env.notifyBatches) := by
            simp [listenIter, hp]
          intro i hi
          rw [ht] at hi ⊢
          have hilen : 2 + channels.length ≤ i := by
            by_contra hcon
            push_neg at hcon
            rcases i with _ | _ | j
            · simp at hi
            · simp at hi
            · have hj : j < channels.length := by omega
              simp only [List.get?_cons_succ] at hi
              rw [List.get?_append (by simpa using hj), List.get?_map] at hi
              cases hcj : channels.get? j with
              | none => rw [hcj] at hi; simp at hi
              | some ch => rw [hcj] at hi; simp at hi
          refine ⟨0, by omega, rfl, ?_, ?_⟩
          · intro j hj0 hji hacq
            rcases j with _ | _ | j'
            · omega
            · simp at hacq
            · simp only [List.get?_cons_succ] at hacq
              have hmem := List.get?_mem hacq
              simp only [List.mem_append, List.mem_cons, List.mem_map] at hmem
              rcases hmem with ⟨x, _, hx⟩ | h | h
              · simp at hx
              · simp at h
              · have h2 := loop_notify_mem env.notifyBatches _ h
                simp at h2
          · intro ch hch
            obtain ⟨idx, hidx⟩ := List.mem_iff_get?.mp hch
            obtain ⟨hidxlt, -⟩ := List.get?_eq_some.mp hidx
            refine ⟨idx + 2, by omega, by omega, ?_⟩
            simp only [List.get?_cons_succ]
            rw [List.get?_append (by simpa using hidxlt), List.get?_map, hidx]
            rfl

/-- Every observed run of the bridge's perpetual loop satisfies the
full-subscription discipline. -/
theorem runIters_safs (channels : List String) :
    ∀ envs : List IterEnv,
      SignalAfterFullSubscribe channels (runIters channels envs).1 := by
  intro envs
  induction envs with
  | nil => intro i hi; simp [runIters] at hi
  | cons env rest ih =>
      cases hp : listenIter channels env with
      | mk t1 err =>
          have h1 := listenIter_safs channels env
          rw [hp] at h1
          cases err with
          | some e => simpa [runIters, hp] using h1
          | none =>
              have h := safs_append h1 ih
              simpa [runIters, hp] using h

/-- One pass of the bridge's loop never clears the signal. -/
theorem listenIter_no_clear (channels : List String) (env : IterEnv) :
    ∀ e ∈ (listenIter channels env).1, e ≠ BridgeEvent.clearSignal := by
  intro e he
  cases hp : runSubscribes env.subErr channels with
  | mk evs err =>
      have hevs : ∀ x ∈ evs, ∃ ch, x = BridgeEvent.subscribe ch := by
        intro x hx
        exact runSubscribes_mem env.subErr channels x (by rw [hp]; exact hx)
      cases err with
      | some ex =>
          simp only [listenIter, hp, List.mem_cons] at he
          rcases he with rfl | rfl | he
          · simp
          · simp
          · obtain ⟨ch, rfl⟩ := hevs e he
            simp
      | none =>
          simp only [listenIter, hp, List.mem_cons, List.mem_append] at he
          rcases he with rfl | rfl | (he | rfl | he)
          · simp
          · simp
          · obtain ⟨ch, rfl⟩ := hevs e he
            simp
          · simp
          · have h2 := loop_notify_mem env.notifyBatches _ he
            subst h2
            simp

/-- No observed run of the bridge's perpetual loop ever clears the signal. -/
theorem runIters_no_clear (channels : List String) :
    ∀ envs : List IterEnv, ∀ e ∈ (runIters channels envs).1,
      e ≠ BridgeEvent.clearSignal := by
  intro envs
  induction envs with
  | nil => intro e he; simp [runIters] at he
  | cons env rest ih =>
      intro e he
      cases hp : listenIter channels env with
      | mk t1 err =>
          have h1 : ∀ x ∈ t1, x ≠ BridgeEvent.clearSignal := by
            intro x hx
            exact listenIter_no_clear channels env x (by rw [hp]; exact hx)
          cases err with
          | some ex =>
              simp only [runIters, hp] at he
              exact h1 e he
          | none =>
              simp only [runIters, hp, List.mem_append] at he
              rcases he with he | he
              · exact h1 e he
              · exact ih e he

/-- Claim C2: during a run of `listen_notify`, the bridge's only mutation of
the shared signal is to set it — it is never cleared — and within each
subscribing phase the signal is set only after the subscribe statement for
every channel in the channel set has succeeded on the current dedicated
connection; it is never set while only part of the channel set is
subscribed. -/
theorem claim_C2 (c : Connector) (channels : List String) (envs : List IterEnv) :
    (∀ e ∈ (listen_notify c channels envs).1, e ≠ BridgeEvent.clearSignal) ∧
    SignalAfterFullSubscribe channels (listen_notify c channels envs).1 := by
  cases hp : c._pool with
  | none =>
      constructor
      · intro e he
        simp [listen_notify, hp] at he
      · intro i hi
        simp [listen_notify, hp] at hi
  | some p =>
      by_cases h1 : p.max_size = 1
      · constructor
        · intro e he
          simp [listen_notify, hp, h1] at he
        · intro i hi
          simp [listen_notify, hp, h1] at hi
      · have hne : (p.max_size == 1) = false := by simpa using h1
        constructor
        · intro e he
          simp only [listen_notify, hp, hne, Bool.false_eq_true, if_false] at he
          exact runIters_no_clear channels envs e he
        · have h := runIters_safs channels envs
          simpa only [listen_notify, hp, hne, Bool.false_eq_true, if_false] using h

end Procrastinate
